import Mathlib

/-!
Shallow embedding of `src/patchy/patchy.py` (the PATCHY-SAN graph-to-grid
pipeline).  Tensors are nested lists; feature scalars are embedded as `Int`
(the pipeline only copies and zero-fills feature values, it never performs
floating-point arithmetic on them, so any carrier with a zero is faithful).
Neighborhood cells are `Int` node indices with the negative ABSENT sentinel.
-/

namespace PatchySan

/-- The ABSENT sentinel, conventionally -1. -/
def ABSENT : Int := -1

/-- The length-C all-zero feature vector, `tf.zeros([1, C])`'s single row. -/
def zeroVector (C : Nat) : List Int := List.replicate C 0

/-- `tf.strided_slice(nodes, [i], [i+1], [1])`: the rows of `nodes` from
position `i` up to (exclusive) `i+1`, clamped to the available rows. -/
def stridedSliceRow (nodes : List (List Int)) (i : Nat) : List (List Int) :=
  (nodes.drop i).take 1

/-- `_map_features` from `PatchySan.read` (src/patchy/patchy.py:181-186):
`i = tf.maximum(node, 0)`; `positive = tf.strided_slice(nodes, [i], [i+1], [1])`;
`negative = tf.zeros([1, C])`; result is `tf.where(i < 0, negative, positive)`.
The select succeeds (one output row) exactly when the chosen branch holds a
single row; an empty `positive` slice is a runtime shape failure, embedded as
`none`. -/
def mapFeatures (C : Nat) (nodes : List (List Int)) (node : Int) :
    Option (List Int) :=
  let i := max node 0
  let positive := stridedSliceRow nodes i.toNat
  let negative := [zeroVector C]
  let selected := if i < 0 then negative else positive
  match selected with
  | [row] => some row
  | _ => none

/-- Modelled from the spec: the Feature Gather contract of section 4.4
("if index is ABSENT, emit a zero vector of length C; otherwise emit
node_features[index]").  Stated here for comparison with the code's
`mapFeatures`. -/
def gatherSpec (C : Nat) (nodes : List (List Int)) (node : Int) :
    Option (List Int) :=
  if node < 0 then some (zeroVector C)
  else ((nodes.drop node.toNat).take 1).head?

/-- `tf.map_fn(_map_features, data)`: elementwise gather over the flattened
neighborhood table, failing when any single gather fails. -/
def mapFeaturesAll (C : Nat) (nodes : List (List Int)) :
    List Int → Option (List (List Int))
  | [] => some []
  | n :: rest =>
    match mapFeatures C nodes n, mapFeaturesAll C nodes rest with
    | some row, some rows => some (row :: rows)
    | _, _ => none

/-- Row-major `tf.reshape` of a list of `N * K` feature rows into an
`[N, K, ·]` nesting: group `i` holds rows `i*K .. i*K + K - 1`. -/
def reshapeRows {α : Type} (N K : Nat) (rows : List α) : List (List α) :=
  (List.range N).map (fun i => (rows.drop (i * K)).take K)

/-- One persisted record: the node feature matrix (shape `[-1, C]`), the
neighborhood index table (shape `[num_nodes, neighborhood_size]`) and the
label, exactly the three components `_each` writes. -/
structure StoredRecord where
  nodes : List (List Int)
  neighborhood : List (List Int)
  label : Int
deriving Repr, DecidableEq

/-- `PatchySan.read` (src/patchy/patchy.py:172-195): flatten the neighborhood
table, gather a feature row per cell with `_map_features`, reshape to
`[num_nodes, neighborhood_size, C]`, and return it with the record's label. -/
def read (C numNodes nbSize : Nat) (rec : StoredRecord) :
    Option (List (List (List Int)) × Int) :=
  match mapFeaturesAll C rec.nodes rec.neighborhood.flatten with
  | none => none
  | some rows => some (reshapeRows numNodes nbSize rows, rec.label)

/-- Stable structural insertion into a sorted list under a boolean "less or
equal" test. -/
def insertSorted {α : Type} (le : α → α → Bool) (x : α) : List α → List α
  | [] => [x]
  | y :: ys => if le x y then x :: y :: ys else y :: insertSorted le x ys

/-- Structural insertion sort under a boolean "less or equal" test. -/
def insertionSort {α : Type} (le : α → α → Bool) : List α → List α
  | [] => []
  | x :: xs => insertSorted le x (insertionSort le xs)

/-- Ordering on (rank, original index) pairs: rank ascending, ties broken by
original index ascending. -/
def rankIndexLe (a b : Int × Nat) : Bool :=
  a.1 < b.1 || (a.1 == b.1 && a.2 ≤ b.2)

/-- Modelled from the spec: node sequence selection of section 4.2
(`src/patchy/helper/node_sequence.py` is imported by the pipeline but is not
part of the source tree).  Sort node indices by (rank, original index)
ascending, walk that order taking every `stride`-th element starting at 0, and
right-pad with ABSENT once the order is exhausted, for a sequence of exactly
`numNodes` entries. -/
def node_sequence (ranks : List Int) (numNodes stride : Nat) : List Int :=
  let order := (insertionSort rankIndexLe
    (ranks.zip (List.range ranks.length))).map (fun p => (p.2 : Int))
  (List.range numNodes).map (fun j =>
    match order.get? (j * stride) with
    | some idx => idx
    | none => ABSENT)

/-- The adjacency-channel slice of `_before` (src/patchy/patchy.py:212-214):
`count = tf.shape(adjacencies)[0]` followed by
`tf.strided_slice(adjacencies, [0, 0, 0], [count, count, 1], [1, 1, 1])`,
keeping only the first channel of each (clamped) entry. -/
def extractAdjacency (adjacencies : List (List (List Int))) :
    List (List (List Int)) :=
  let count := adjacencies.length
  (adjacencies.take count).map (fun row =>
    (row.take count).map (fun cell => cell.take 1))

/-- `tf.squeeze(·, axis=2)`: drop the third axis, which must have extent one
in every cell; a cell of any other extent is a runtime shape failure. -/
def squeezeAxis2 (t : List (List (List Int))) : Option (List (List Int)) :=
  t.mapM (fun row => row.mapM (fun cell =>
    match cell with
    | [x] => some x
    | _ => none))

/-- The per-example transform `_before` (src/patchy/patchy.py:208-221),
restricted to the graph stages: slice out the first adjacency channel, run the
node labeling, select the node sequence with `numNodes` and `stride`, and
assemble the neighborhood table with `nbSize`.  Returns the selected sequence
together with the assembled table.  `labeling` and `assembly` are the
strategy parameters of `_write`. -/
def beforeStages (labeling : List (List Int) → List Int)
    (assembly : List (List Int) → List Int → Nat → List (List Int))
    (numNodes stride nbSize : Nat) (adjacencies : List (List (List Int))) :
    Option (List Int × List (List Int)) :=
  match squeezeAxis2 (extractAdjacency adjacencies) with
  | none => none
  | some adjacency =>
    let sequence := node_sequence (labeling adjacency) numNodes stride
    some (sequence, assembly adjacency sequence nbSize)

/-- The full `_before` output `[nodes, neighborhood, label]`
(src/patchy/patchy.py:221). -/
def beforeOutput (labeling : List (List Int) → List Int)
    (assembly : List (List Int) → List Int → Nat → List (List Int))
    (numNodes stride nbSize : Nat) (nodes : List (List Int))
    (adjacencies : List (List (List Int))) (label : Int) :
    Option (List (List Int) × List (List Int) × Int) :=
  match beforeStages labeling assembly numNodes stride nbSize adjacencies with
  | none => none
  | some (_, neighborhood) => some (nodes, neighborhood, label)

/-- `_each` (src/patchy/patchy.py:223-226): the record persisted for one
output is `{'nodes': output[0], 'neighborhood': output[1]}` with label
`output[2]` — the index table, never the expanded feature tensor. -/
def eachRecord (output : List (List Int) × List (List Int) × Int) :
    StoredRecord :=
  { nodes := output.1, neighborhood := output.2.1, label := output.2.2 }

/-- The per-split metadata `_done` persists (src/patchy/patchy.py:238-239):
`{'count': index}`. -/
structure SplitInfo where
  count : Nat
deriving Repr, DecidableEq

/-- One raw example of the backing dataset: node feature matrix, adjacency
tensor (with channels) produced by the grapher, and label. -/
structure Example where
  nodes : List (List Int)
  adjacencies : List (List (List Int))
  label : Int

/-- Transform each example with `_before` and persist each output with
`_each`, in input order; fails when any example's transform fails. -/
def processExamples (labeling : List (List Int) → List Int)
    (assembly : List (List Int) → List Int → Nat → List (List Int))
    (numNodes stride nbSize : Nat) : List Example → Option (List StoredRecord)
  | [] => some []
  | e :: es =>
    match beforeOutput labeling assembly numNodes stride nbSize
        e.nodes e.adjacencies e.label,
      processExamples labeling assembly numNodes stride nbSize es with
    | some out, some recs => some (eachRecord out :: recs)
    | _, _ => none

/-- Modelled from the spec: the write pass of `_write`
(src/patchy/patchy.py:198-241) over one split.  The `iterator` collaborator
(module `data`, not in the source tree) "drives one pass over a dataset of
(graph, label) pairs" calling `_before` per example, `_each` per output and
finally `_done` with the final processed count, which `_done` stores as
`{'count': index}` in the split's info file. -/
def writePass (labeling : List (List Int) → List Int)
    (assembly : List (List Int) → List Int → Nat → List (List Int))
    (numNodes stride nbSize : Nat) (examples : List Example) :
    Option (List StoredRecord × SplitInfo) :=
  match processExamples labeling assembly numNodes stride nbSize examples with
  | none => none
  | some recs => some (recs, { count := recs.length })

/-- `PatchySan.num_examples_per_epoch_for_train`
(src/patchy/patchy.py:150-153): the minimum of the count stored in the train
split's info file and the backing dataset's train epoch size. -/
def num_examples_per_epoch_for_train (trainInfo : SplitInfo)
    (datasetTrain : Nat) : Nat :=
  min trainInfo.count datasetTrain

/-- `PatchySan.num_examples_per_epoch_for_eval`
(src/patchy/patchy.py:156-159): the minimum of the count stored in the eval
split's info file and the backing dataset's eval epoch size. -/
def num_examples_per_epoch_for_eval (evalInfo : SplitInfo)
    (datasetEval : Nat) : Nat :=
  min evalInfo.count datasetEval

/-- Strategies are identified by their `__name__`, the string the pipeline
stores in `info.json`. -/
def scanline : String := "scanline"

/-- The name of the default neighborhood assembly strategy. -/
def neighborhoods_weights_to_root : String := "neighborhoods_weights_to_root"

/-- The default substitution of `PatchySan.__init__`
(src/patchy/patchy.py:44): `node_labeling = scanline if node_labeling is None
else node_labeling`. -/
def resolveNodeLabeling (nodeLabeling : Option String) : String :=
  nodeLabeling.getD scanline

/-- The default substitution of `PatchySan.__init__`
(src/patchy/patchy.py:45-46): `neighborhood_assembly =
neighborhoods_weights_to_root if neighborhood_assembly is None else
neighborhood_assembly`. -/
def resolveNeighborhoodAssembly (neighborhoodAssembly : Option String) :
    String :=
  neighborhoodAssembly.getD neighborhoods_weights_to_root

/-- Python `dict.get(key)` on a name-keyed strategy registry (`labelings` /
`neighborhood_assemblies` live in helper modules not in the source tree and
are modelled as association lists that never key `None`): a missing key, and
in particular `None` from `config.get(...)`, yields `None`. -/
def registryGet (registry : List (String × String)) :
    Option String → Option String
  | none => none
  | some k => (registry.find? (fun p => p.1 == k)).map (fun p => p.2)

/-- The labeling strategy a `PatchySan.create` call resolves to
(src/patchy/patchy.py:124 feeding line 44): `labelings.get(config.get(
'node_labeling'))` passed through the `__init__` default. -/
def createNodeLabeling (labelings : List (String × String))
    (configured : Option String) : String :=
  resolveNodeLabeling (registryGet labelings configured)

/-- The assembly strategy a `PatchySan.create` call resolves to
(src/patchy/patchy.py:127 feeding lines 45-46). -/
def createNeighborhoodAssembly (assemblies : List (String × String))
    (configured : Option String) : String :=
  resolveNeighborhoodAssembly (registryGet assemblies configured)

/-- The configuration state `PatchySan.__init__` works with, with the
strategy selectors already resolved to their defaults. -/
structure Config where
  force_write : Bool
  write_num_epochs : Nat
  distort_inputs : Bool
  node_labeling : String
  num_nodes : Nat
  node_stride : Nat
  neighborhood_assembly : String
  neighborhood_size : Nat
deriving Repr, DecidableEq

/-- The pipeline-level descriptor `PatchySan.__init__` dumps to `info.json`
(src/patchy/patchy.py:64-74), field for field. -/
structure InfoDescriptor where
  max_num_epochs : Nat
  distort_inputs : Bool
  node_labeling : String
  num_nodes : Nat
  num_node_channels : Nat
  node_stride : Nat
  neighborhood_assembly : String
  neighborhood_size : Nat
  num_edge_channels : Nat
deriving Repr, DecidableEq

/-- Which of the four data files already exist when `__init__` runs (after
the `force_write` delete, all of them are absent). -/
structure FsState where
  info_exists : Bool
  train_exists : Bool
  eval_exists : Bool
  train_eval_exists : Bool
deriving Repr, DecidableEq

/-- The `info.json` write of `PatchySan.__init__` (src/patchy/patchy.py:63-74):
performed iff the file is absent or `force_write` is set, and recording the
configuration values together with the grapher's channel counts. -/
def initInfoWrite (fs : FsState) (cfg : Config)
    (numNodeChannels numEdgeChannels : Nat) : Option InfoDescriptor :=
  if !fs.info_exists || cfg.force_write then
    some { max_num_epochs := cfg.write_num_epochs,
           distort_inputs := cfg.distort_inputs,
           node_labeling := cfg.node_labeling,
           num_nodes := cfg.num_nodes,
           num_node_channels := numNodeChannels,
           node_stride := cfg.node_stride,
           neighborhood_assembly := cfg.neighborhood_assembly,
           neighborhood_size := cfg.neighborhood_size,
           num_edge_channels := numEdgeChannels }
  else none

/-- The filenames of src/patchy/patchy.py:26-32. -/
def TRAIN_FILENAME : String := "train.tfrecords"

/-- The eval split's records file. -/
def EVAL_FILENAME : String := "eval.tfrecords"

/-- The train_eval split's records file. -/
def TRAIN_EVAL_FILENAME : String := "train_eval.tfrecords"

/-- One `_write` invocation of `PatchySan.__init__`, recording the arguments
that distinguish the three call sites: the `eval_data` flag, the target
records file, the epoch count and the shuffle flag. -/
structure WriteCall where
  eval_data : Bool
  file : String
  num_epochs : Nat
  shuffle : Bool
deriving Repr, DecidableEq

/-- The `_write` invocations `PatchySan.__init__` performs, in order
(src/patchy/patchy.py:79-100): the train split with `write_num_epochs` and
shuffling, when its file is absent; the eval split with one epoch and no
shuffling, when its file is absent; the train_eval split with one epoch and
no shuffling, only when `distort_inputs` is set and its file is absent. -/
def initWriteCalls (fs : FsState) (cfg : Config) : List WriteCall :=
  (if !fs.train_exists then
    [{ eval_data := false, file := TRAIN_FILENAME,
       num_epochs := cfg.write_num_epochs, shuffle := true }]
   else []) ++
  (if !fs.eval_exists then
    [{ eval_data := true, file := EVAL_FILENAME,
       num_epochs := 1, shuffle := false }]
   else []) ++
  (if cfg.distort_inputs && !fs.train_eval_exists then
    [{ eval_data := false, file := TRAIN_EVAL_FILENAME,
       num_epochs := 1, shuffle := false }]
   else [])

/-- `PatchySan.train_eval_filenames` (src/patchy/patchy.py:138-143): the
train_eval records file when `distort_inputs` is set, otherwise the train
split's file. -/
def train_eval_filenames (distortInputs : Bool) : List String :=
  if distortInputs then [TRAIN_EVAL_FILENAME] else [TRAIN_FILENAME]

/-! Theorems. -/

/-- C1: the claim fails on the code.  `_map_features` computes
`i = tf.maximum(node, 0)` and then branches on `i < 0`, which is never true,
so for the ABSENT cell `-1` over node features `[[5]]` (one channel) the code
emits `node_features[0] = [5]` — not the zero vector the claim and the spec's
Feature Gather contract (`gatherSpec`) require.  The dead `negative` branch
shows zero-fill was the intent. -/
theorem mapFeatures_absent_emits_row_zero :
    mapFeatures 1 [[5]] ABSENT = some [5] ∧
    mapFeatures 1 [[5]] ABSENT ≠ some (zeroVector 1) ∧
    gatherSpec 1 [[5]] ABSENT = some (zeroVector 1) := by
  refine ⟨by decide, by decide, by decide⟩

/-- Helper: a singleton `take 1` exposes the head. -/
theorem take_one_eq_singleton {α : Type} (l : List α) (x : α)
    (h : l.take 1 = [x]) : x ∈ l := by
  cases l with
  | nil => simp at h
  | cons a t =>
    simp [List.take] at h
    simp [h]

/-- Helper: a successful single-row strided slice yields a row of the node
matrix. -/
theorem stridedSliceRow_mem (nodes : List (List Int)) (i : Nat)
    (r : List Int) (h : stridedSliceRow nodes i = [r]) : r ∈ nodes := by
  unfold stridedSliceRow at h
  exact List.drop_subset i nodes (take_one_eq_singleton _ _ h)

/-- Helper: every row `mapFeatures` emits has the node matrix's channel
count. -/
theorem mapFeatures_length (C : Nat) (nodes : List (List Int)) (node : Int)
    (row : List Int) (hC : ∀ r ∈ nodes, r.length = C)
    (h : mapFeatures C nodes node = some row) : row.length = C := by
  simp only [mapFeatures] at h
  rw [if_neg (by simp [Int.not_lt, le_max_right])] at h
  cases e : stridedSliceRow nodes (max node 0).toNat with
  | nil => rw [e] at h; simp at h
  | cons r t =>
    cases t with
    | nil =>
      rw [e] at h
      simp only [Option.some.injEq] at h
      subst h
      exact hC r (stridedSliceRow_mem _ _ _ e)
    | cons r2 t2 => rw [e] at h; simp at h

/-- Helper: the elementwise gather preserves the cell count. -/
theorem mapFeaturesAll_length (C : Nat) (nodes : List (List Int)) :
    ∀ (l : List Int) (rows : List (List Int)),
      mapFeaturesAll C nodes l = some rows → rows.length = l.length := by
  intro l
  induction l with
  | nil => intro rows h; simp [mapFeaturesAll] at h; simp [← h]
  | cons n rest ih =>
    intro rows h
    unfold mapFeaturesAll at h
    cases e1 : mapFeatures C nodes n with
    | none => rw [e1] at h; simp at h
    | some row =>
      cases e2 : mapFeaturesAll C nodes rest with
      | none => rw [e1, e2] at h; simp at h
      | some rs =>
        rw [e1, e2] at h
        simp only [Option.some.injEq] at h
        subst h
        simp [ih rs e2]

/-- Helper: every row the elementwise gather emits has the channel count. -/
theorem mapFeaturesAll_rows_length (C : Nat) (nodes : List (List Int))
    (hC : ∀ r ∈ nodes, r.length = C) :
    ∀ (l : List Int) (rows : List (List Int)),
      mapFeaturesAll C nodes l = some rows → ∀ r ∈ rows, r.length = C := by
  intro l
  induction l with
  | nil =>
    intro rows h
    simp [mapFeaturesAll] at h
    subst h
    intro r hr
    simp at hr
  | cons n rest ih =>
    intro rows h
    unfold mapFeaturesAll at h
    cases e1 : mapFeatures C nodes n with
    | none => rw [e1] at h; simp at h
    | some row =>
      cases e2 : mapFeaturesAll C nodes rest with
      | none => rw [e1, e2] at h; simp at h
      | some rs =>
        rw [e1, e2] at h
        simp only [Option.some.injEq] at h
        subst h
        intro r hr
        rcases List.mem_cons.mp hr with h1 | h2
        · subst h1; exact mapFeatures_length C nodes n r hC e1
        · exact ih rs e2 r h2

/-- Helper: flattening a table of uniform row length multiplies out. -/
theorem flatten_length_uniform {α : Type} (k : Nat) :
    ∀ (L : List (List α)), (∀ r ∈ L, r.length = k) →
      L.flatten.length = L.length * k := by
  intro L
  induction L with
  | nil => intro _; simp
  | cons r rest ih =>
    intro h
    simp only [List.flatten_cons, List.length_append, List.length_cons]
    rw [h r (by simp), ih (fun r hr => h r (by simp [hr]))]
    ring

/-- Helper: the row-major reshape produces exactly `N` groups. -/
theorem reshapeRows_length {α : Type} (N K : Nat) (rows : List α) :
    (reshapeRows N K rows).length = N := by
  simp [reshapeRows]

/-- Helper: with `N * K` elements available, every reshape group has exactly
`K` entries. -/
theorem reshapeRows_mem_length {α : Type} (N K : Nat) (rows : List α)
    (hlen : rows.length = N * K) (c : List α)
    (hc : c ∈ reshapeRows N K rows) : c.length = K := by
  unfold reshapeRows at hc
  rcases List.mem_map.mp hc with ⟨i, hi, hci⟩
  rcases List.mem_range.mp hi with hiN
  subst hci
  have h1 : 1 ≤ N - i := by omega
  have h2 : K ≤ rows.length - i * K := by
    rw [hlen, ← Nat.sub_mul]
    calc K = 1 * K := (one_mul K).symm
    _ ≤ (N - i) * K := Nat.mul_le_mul_right K h1
  simp [List.length_take, List.length_drop]
  omega

/-- Helper: every reshape group draws its entries from the input rows. -/
theorem reshapeRows_mem_subset {α : Type} (N K : Nat) (rows : List α)
    (c : List α) (hc : c ∈ reshapeRows N K rows) : c ⊆ rows := by
  unfold reshapeRows at hc
  rcases List.mem_map.mp hc with ⟨i, _, hci⟩
  subst hci
  exact fun x hx =>
    List.drop_subset (i * K) rows (List.take_subset K _ hx)

/-- C2: for every well-shaped stored record (the shapes `read_tfrecord`
enforces: a `[num_nodes, neighborhood_size]` index table and `C`-channel node
rows), a successful `PatchySan.read` returns the record's label and a feature
tensor of shape exactly `[num_nodes, neighborhood_size, C]`, with no
constraint on how many node rows the record stores. -/
theorem read_shape (C numNodes nbSize : Nat) (rec : StoredRecord)
    (t : List (List (List Int))) (l : Int)
    (hN : rec.neighborhood.length = numNodes)
    (hK : ∀ row ∈ rec.neighborhood, row.length = nbSize)
    (hC : ∀ r ∈ rec.nodes, r.length = C)
    (h : read C numNodes nbSize rec = some (t, l)) :
    t.length = numNodes ∧
    (∀ row ∈ t, row.length = nbSize ∧ ∀ cell ∈ row, cell.length = C) ∧
    l = rec.label := by
  unfold read at h
  cases e : mapFeaturesAll C rec.nodes rec.neighborhood.flatten with
  | none => rw [e] at h; simp at h
  | some rows =>
    rw [e] at h
    simp only [Option.some.injEq, Prod.mk.injEq] at h
    obtain ⟨ht, hl⟩ := h
    subst ht
    have hrows : rows.length = numNodes * nbSize := by
      rw [mapFeaturesAll_length C rec.nodes _ rows e,
        flatten_length_uniform nbSize _ hK, hN]
    refine ⟨reshapeRows_length _ _ _, ?_, hl.symm⟩
    intro row hrow
    refine ⟨reshapeRows_mem_length _ _ _ hrows row hrow, ?_⟩
    intro cell hcell
    exact mapFeaturesAll_rows_length C rec.nodes hC _ rows e cell
      (reshapeRows_mem_subset _ _ _ _ hrow hcell)

/-- Witness for C2 at a concrete record: one node row of one channel, a 1×1
index table, label 3. -/
theorem read_shape_witness :
    ([[[7]]] : List (List (List Int))).length = 1 ∧
    (∀ row ∈ ([[[7]]] : List (List (List Int))), row.length = 1 ∧
      ∀ cell ∈ row, cell.length = 1) ∧
    (3 : Int) = (StoredRecord.mk [[7]] [[0]] 3).label :=
  read_shape 1 1 1 (StoredRecord.mk [[7]] [[0]] 3)
    [[[7]]] 3 (by decide) (by decide) (by decide) (by decide)

/-- C3: `_before` slices out channel 0 of the adjacency tensor before any
stage runs, so for any two adjacency tensors whose channel-0 slices agree the
per-example transform produces the same node sequence and the same
neighborhood index table, whatever the labeling and assembly strategies. -/
theorem before_depends_only_on_first_channel
    (labeling : List (List Int) → List Int)
    (assembly : List (List Int) → List Int → Nat → List (List Int))
    (numNodes stride nbSize : Nat) (A1 A2 : List (List (List Int)))
    (h : extractAdjacency A1 = extractAdjacency A2) :
    beforeStages labeling assembly numNodes stride nbSize A1 =
    beforeStages labeling assembly numNodes stride nbSize A2 := by
  unfold beforeStages
  rw [h]

/-- Witness for C3: two 1-node adjacency tensors that agree on channel 0 and
differ on channel 1 yield the same sequence and table. -/
theorem before_depends_only_on_first_channel_witness :
    beforeStages (fun adj => adj.flatten) (fun _ seq _ => [seq]) 2 1 3
      [[[1, 5]]] =
    beforeStages (fun adj => adj.flatten) (fun _ seq _ => [seq]) 2 1 3
      [[[1, 9]]] :=
  before_depends_only_on_first_channel (fun adj => adj.flatten)
    (fun _ seq _ => [seq]) 2 1 3 [[[1, 5]]] [[[1, 9]]] (by decide)

/-- C4: the write pass applies node labeling to the (channel-0) adjacency,
then node sequence selection to the labeling's output with `numNodes` and
`stride`, then neighborhood assembly to the adjacency, the selected sequence
and `nbSize`; the record `_each` persists for the example is exactly the
triple (node features, neighborhood index table, label) — a `StoredRecord`
holds the index table, never the read-time gathered feature tensor. -/
theorem write_persists_index_table
    (labeling : List (List Int) → List Int)
    (assembly : List (List Int) → List Int → Nat → List (List Int))
    (numNodes stride nbSize : Nat) (nodes : List (List Int))
    (A : List (List (List Int))) (label : Int)
    (adjacency : List (List Int))
    (hadj : squeezeAxis2 (extractAdjacency A) = some adjacency)
    (out : List (List Int) × List (List Int) × Int)
    (h : beforeOutput labeling assembly numNodes stride nbSize
      nodes A label = some out) :
    eachRecord out = StoredRecord.mk nodes
      (assembly adjacency
        (node_sequence (labeling adjacency) numNodes stride) nbSize)
      label := by
  unfold beforeOutput beforeStages at h
  rw [hadj] at h
  simp only [Option.some.injEq] at h
  subst h
  rfl

/-- Witness for C4 at a one-node graph with a concrete labeling and
assembly. -/
theorem write_persists_index_table_witness :
    eachRecord ([[7]], [[(0 : Int)]], (2 : Int)) =
      StoredRecord.mk [[7]]
        ((fun _ seq _ => [seq]) [[(1 : Int)]]
          (node_sequence ((fun adj => adj.flatten) [[(1 : Int)]]) 1 1) 4)
        2 :=
  write_persists_index_table (fun adj => adj.flatten) (fun _ seq _ => [seq])
    1 1 4 [[7]] [[[1]]] 2 [[1]] (by decide) ([[7]], [[0]], 2) (by decide)

/-- C5: a completed write pass stores `{'count': n}` in the split's info
file, where `n` is exactly the number of records persisted, and the stored
count is what the epoch-size computation consumes. -/
theorem writePass_count_metadata
    (labeling : List (List Int) → List Int)
    (assembly : List (List Int) → List Int → Nat → List (List Int))
    (numNodes stride nbSize : Nat) (examples : List Example)
    (records : List StoredRecord) (info : SplitInfo) (d : Nat)
    (h : writePass labeling assembly numNodes stride nbSize examples =
      some (records, info)) :
    info = SplitInfo.mk records.length ∧
    num_examples_per_epoch_for_train info d = min records.length d := by
  unfold writePass at h
  cases e : processExamples labeling assembly numNodes stride nbSize
      examples with
  | none => rw [e] at h; simp at h
  | some recs =>
    rw [e] at h
    simp only [Option.some.injEq, Prod.mk.injEq] at h
    obtain ⟨h1, h2⟩ := h
    subst h1
    subst h2
    exact ⟨rfl, rfl⟩

/-- Witness for C5: a one-example pass stores count 1 and the train epoch
size computed from it is `min 1 5`. -/
theorem writePass_count_metadata_witness :
    SplitInfo.mk 1 = SplitInfo.mk [StoredRecord.mk [[7]] [[0]] 2].length ∧
    num_examples_per_epoch_for_train (SplitInfo.mk 1) 5 =
      min [StoredRecord.mk [[7]] [[0]] 2].length 5 :=
  writePass_count_metadata (fun adj => adj.flatten) (fun _ seq _ => [seq])
    1 1 4 [Example.mk [[7]] [[[1]]] 2] [StoredRecord.mk [[7]] [[0]] 2]
    (SplitInfo.mk 1) 5 (by decide)

/-- C6: when no descriptor file pre-exists, constructing the dataset writes
`info.json` recording exactly the write-time configuration: the epoch count,
the distort flag, both strategy names, `num_nodes`, `node_stride`,
`neighborhood_size`, and the grapher's node and edge channel counts. -/
theorem init_writes_info_descriptor (fs : FsState) (cfg : Config)
    (nodeChannels edgeChannels : Nat) (h : fs.info_exists = false) :
    initInfoWrite fs cfg nodeChannels edgeChannels =
      some (InfoDescriptor.mk cfg.write_num_epochs cfg.distort_inputs
        cfg.node_labeling cfg.num_nodes nodeChannels cfg.node_stride
        cfg.neighborhood_assembly cfg.neighborhood_size edgeChannels) := by
  unfold initInfoWrite
  rw [h]
  simp

/-- Witness for C6 at a concrete fresh directory and configuration. -/
theorem init_writes_info_descriptor_witness :
    initInfoWrite (FsState.mk false false false false)
      (Config.mk false 2 true "scanline" 100 1
        "neighborhoods_weights_to_root" 9) 3 1 =
      some (InfoDescriptor.mk 2 true "scanline" 100 3 1
        "neighborhoods_weights_to_root" 9 1) :=
  init_writes_info_descriptor (FsState.mk false false false false)
    (Config.mk false 2 true "scanline" 100 1
      "neighborhoods_weights_to_root" 9) 3 1 rfl

/-- C7: a missing `node_labeling` selector resolves to the scanline strategy
and a missing `neighborhood_assembly` selector to the weight-to-root BFS
variant, both under direct construction (`resolve*`, the `__init__` None
checks) and under `PatchySan.create`, whose registry lookup of an absent
configuration key also yields None. -/
theorem default_strategies (labelings assemblies : List (String × String)) :
    resolveNodeLabeling none = scanline ∧
    resolveNeighborhoodAssembly none = neighborhoods_weights_to_root ∧
    createNodeLabeling labelings none = scanline ∧
    createNeighborhoodAssembly assemblies none =
      neighborhoods_weights_to_root :=
  ⟨rfl, rfl, rfl, rfl⟩

/-- C8: each reported per-epoch example count is the minimum of the split's
stored count and the backing dataset's corresponding count, hence bounded by
both. -/
theorem epoch_counts_are_min (trainInfo evalInfo : SplitInfo)
    (datasetTrain datasetEval : Nat) :
    num_examples_per_epoch_for_train trainInfo datasetTrain =
      min trainInfo.count datasetTrain ∧
    num_examples_per_epoch_for_train trainInfo datasetTrain ≤
      trainInfo.count ∧
    num_examples_per_epoch_for_train trainInfo datasetTrain ≤ datasetTrain ∧
    num_examples_per_epoch_for_eval evalInfo datasetEval =
      min evalInfo.count datasetEval ∧
    num_examples_per_epoch_for_eval evalInfo datasetEval ≤ evalInfo.count ∧
    num_examples_per_epoch_for_eval evalInfo datasetEval ≤ datasetEval :=
  ⟨rfl, Nat.min_le_left _ _, Nat.min_le_right _ _,
   rfl, Nat.min_le_left _ _, Nat.min_le_right _ _⟩

/-- C9: the eval split's materialization is always exactly one unshuffled
pass — the eval-flagged `_write` call, when performed, is single-epoch and
unshuffled for every configuration — and changing `write_num_epochs` leaves
every call other than the train file's call untouched. -/
theorem eval_split_one_unshuffled_pass (fs : FsState) (cfg : Config)
    (k k' : Nat) :
    (initWriteCalls fs cfg).filter (fun c => c.eval_data) =
      (if !fs.eval_exists then
        [WriteCall.mk true EVAL_FILENAME 1 false] else []) ∧
    (initWriteCalls fs { cfg with write_num_epochs := k }).filter
        (fun c => c.file != TRAIN_FILENAME) =
      (initWriteCalls fs { cfg with write_num_epochs := k' }).filter
        (fun c => c.file != TRAIN_FILENAME) := by
  obtain ⟨i, t, e, te⟩ := fs
  obtain ⟨fw, wne, di, nl, nn, ns, na, nbs⟩ := cfg
  cases t <;> cases e <;> cases te <;> cases di <;>
    simp [initWriteCalls, TRAIN_FILENAME, EVAL_FILENAME, TRAIN_EVAL_FILENAME]

/-- C10: the train_eval split is written — as a single unshuffled pass —
exactly when `distort_inputs` is set and its file is absent; with
`distort_inputs` unset no train_eval write ever happens and
`train_eval_filenames` answers the train split's file instead. -/
theorem train_eval_split_only_when_distorted (fs : FsState) (cfg : Config) :
    (initWriteCalls fs cfg).filter
        (fun c => c.file == TRAIN_EVAL_FILENAME) =
      (if cfg.distort_inputs && !fs.train_eval_exists then
        [WriteCall.mk false TRAIN_EVAL_FILENAME 1 false] else []) ∧
    train_eval_filenames cfg.distort_inputs =
      (if cfg.distort_inputs then [TRAIN_EVAL_FILENAME]
       else [TRAIN_FILENAME]) := by
  obtain ⟨i, t, e, te⟩ := fs
  obtain ⟨fw, wne, di, nl, nn, ns, na, nbs⟩ := cfg
  cases t <;> cases e <;> cases te <;> cases di <;>
    simp [initWriteCalls, train_eval_filenames, TRAIN_FILENAME,
      EVAL_FILENAME, TRAIN_EVAL_FILENAME]

end PatchySan
